import Mathlib

/-!
Verification of the cell module of ABSESpy (`abses/cells.py`).

The file shallowly embeds the `PatchCell` class, the `raster_attribute`
marker, and the collaborator surface the cell code touches (the owning
raster layer, the per-cell agent container, the generic attribute store
of the base observable object).  Stateful Python code is embedded as
explicit state passing: a method that mutates returns the updated state;
a method that raises returns an error value through `Except` or an
`Option` error component.
-/

set_option autoImplicit false

namespace ABSES

/-- Python attribute values that flow through the cell's attribute store.
`Value.none` plays the role of Python `None` (the default `default`). -/
inductive Value where
  | none
  | vInt (n : Int)
  | vStr (s : String)
  deriving DecidableEq

/-- Grid position, mirroring `Pos: TypeAlias = Tuple[int, int]`. -/
abbrev Pos := Int × Int

/-- Errors the cell code can raise.  `invalidLayer` embeds the `TypeError`
raised by `PatchCell._set_layer` (the spec calls it `InvalidLayerError`);
`unboundCell` embeds the `ABSESpyError` raised by the `layer` accessor
(the spec calls it `UnboundCellError`). -/
inductive CellError where
  | invalidLayer
  | unboundCell
  deriving DecidableEq

/-- The mutable attribute store visible through the generic attribute
lookup, plus a log of the layer-refresh requests issued so far.  The log
records that the cell instructed the layer to recompute a dynamic
variable, and in which order. -/
structure LayerState where
  values : List (String × Value)
  refreshLog : List String
  deriving DecidableEq

/-- Look a name up in the attribute store. -/
def lookupStore : List (String × Value) → String → Option Value
  | [], _ => Option.none
  | (k, v) :: rest, a => if k = a then some v else lookupStore rest a

/-- Write a binding into the attribute store, replacing any existing one. -/
def updateStore : List (String × Value) → String → Value → List (String × Value)
  | [], a, v => [(a, v)]
  | (k, w) :: rest, a, v =>
      if k = a then (a, v) :: rest else (k, w) :: updateStore rest a v

/-- The owning raster layer, restricted to the surface `cells.py` touches:
the `RasterBase` capability flag checked at construction, the model the
layer belongs to, the registered dynamic variable names with their
recomputation, the coordinate transform, and the neighbor resolution
entry point.  All of these live outside `cells.py` (in `PatchModule`),
so only their interface is embedded; the functions are arbitrary. -/
structure Layer where
  isRasterBase : Bool
  modelId : Nat
  dynamic_variables : List String
  compute : String → Value
  transform_coord : Int → Int → Int × Int
  get_neighboring_by_indices : Pos → Bool → Int → Bool → Bool → List Pos

/-- Modelled from the spec: `PatchModule.dynamic_var` is not under `src/`;
the spec says a refresh request makes the layer "recompute/refresh that
variable" so that a subsequent read sees a value no older than the
request.  The refresh recomputes the binding in the store and appends the
request to the log. -/
def Layer.dynamic_var (l : Layer) (attr_name : String) (st : LayerState) :
    LayerState :=
  { values := updateStore st.values attr_name (l.compute attr_name),
    refreshLog := st.refreshLog ++ [attr_name] }

/-- The per-cell agent container created by `PatchCell._set_layer`:
`_CellAgentsContainer(layer.model, cell=self, max_len=...)`.  The
container itself lives outside `cells.py`; the claims only concern which
model, cell and capacity it is constructed with, so those fields are the
embedding.  The cell is identified by its grid indices (its unique key
within a layer). -/
structure CellAgentsContainer where
  modelId : Nat
  cellIndices : Pos
  max_len : Option Nat
  deriving DecidableEq

/-- A Python function object carrying the `is_decorated` marker slot.
`getattr(f, "is_decorated", False)` reads `false` for an undecorated
function, so absence of the marker is embedded as the value `false`. -/
structure PyFunc where
  fnId : Nat
  is_decorated : Bool
  deriving DecidableEq

/-- One entry of a class dictionary: either a `property` object (with its
`fget` function) or any other kind of member. -/
inductive ClassMember where
  | prop (fget : PyFunc)
  | other (memberId : Nat)
  deriving DecidableEq

/-- A concrete cell type: its own class dictionary (`cls.__dict__`), the
members it merely inherits from base classes, and the `max_agents` class
attribute (declared `Optional[int] = None` on `PatchCell`). -/
structure CellClass where
  own : List (String × ClassMember)
  inherited : List (String × ClassMember)
  max_agents : Option Nat
  deriving DecidableEq

/-- Embeds `raster_attribute`: sets `is_decorated = True` on the function
and wraps it in a `property`, changing nothing else about it. -/
def raster_attribute (func : PyFunc) : ClassMember :=
  ClassMember.prop { func with is_decorated := true }

/-- Embeds `PatchCell.__attribute_properties__`: the names in the type's
own class dictionary bound to a `property` whose `fget` carries the
`is_decorated` marker. -/
def CellClass.attribute_properties (cls : CellClass) : List String :=
  (cls.own.filter fun p =>
    match p.2 with
    | ClassMember.prop g => g.is_decorated
    | ClassMember.other _ => false).map Prod.fst

/-- A `PatchCell` instance.  `_layer` and `_agents` are `Option`s because
the attributes are unset (`None` / absent) on a partially constructed
cell; `modelId` records the model passed to `_BaseObj.__init__`. -/
structure PatchCell where
  indices : Pos
  pos : Option Pos
  _layer : Option Layer
  _agents : Option CellAgentsContainer
  modelId : Nat

/-- Embeds `PatchCell._set_layer`: checks the `RasterBase` capability
first and raises `TypeError` on failure; only on success does it assign
the layer back-reference and then the agent container.  The returned
pair is (raised error if any, object state afterwards), so the state at
the point of a raise is visible. -/
def PatchCell._set_layer (cls : CellClass) (self : PatchCell) (layer : Layer) :
    Option CellError × PatchCell :=
  if layer.isRasterBase then
    let self := { self with _layer := some layer }
    let self := { self with
      _agents := some
        { modelId := layer.modelId, cellIndices := self.indices,
          max_len := cls.max_agents } }
    (Option.none, self)
  else
    (some CellError.invalidLayer, self)

/-- Embeds `PatchCell.__init__`: the base initializers run first
(`_BaseObj.__init__` binds the model; `_LinkNodeCell.__init__` leaves the
layer back-reference unset — modelled from the spec, since those bases
are not under `src/` and the spec says accessing the layer "before
assignment is an error"), then `indices` and `pos` are stored, then
`_set_layer` runs.  Returns (raised error if any, object state). -/
def PatchCell.runInit (cls : CellClass) (layer : Layer) (indices : Pos)
    (pos : Option Pos) : Option CellError × PatchCell :=
  let self : PatchCell :=
    { indices := indices, pos := pos, _layer := Option.none,
      _agents := Option.none, modelId := layer.modelId }
  PatchCell._set_layer cls self layer

/-- Embeds the `layer` property accessor: raises `ABSESpyError` when
`_layer` is `None`, otherwise returns the bound layer. -/
def PatchCell.layer (self : PatchCell) : Except CellError Layer :=
  match self._layer with
  | Option.none => Except.error CellError.unboundCell
  | some l => Except.ok l

/-- Embeds the `agents` property accessor: returns `_agents`. -/
def PatchCell.agents (self : PatchCell) : Option CellAgentsContainer :=
  self._agents

/-- Embeds the `coordinate` property: unpacks `row, col = self.indices`
and returns `self.layer.transform_coord(row=row, col=col)`. -/
def PatchCell.coordinate (self : PatchCell) : Except CellError (Int × Int) :=
  match self.layer with
  | Except.error e => Except.error e
  | Except.ok l => Except.ok (l.transform_coord self.indices.1 self.indices.2)

/-- Modelled from the spec: the generic `get(attr, target, default)` of
the base observable-object capability is not under `src/`; the spec says
it performs ordinary attribute lookup and "returns `default` if absent,
never raises for missing keys".  The `target` selection is out of the
spec's scope and does not affect the lookup here. -/
def PatchCell.superGet (st : LayerState) (attr : String)
    (_target : Option String) (default : Value) : Value :=
  (lookupStore st.values attr).getD default

/-- Embeds `PatchCell.get`: if `attr` is among the layer's dynamic
variables, first call `layer.dynamic_var(attr_name=attr)`, then delegate
to `super().get(attr, target, default)`.  Accessing `self.layer` raises
when the cell is unbound.  Returns the value, the object afterwards, and
the store/log state afterwards. -/
def PatchCell.get (self : PatchCell) (st : LayerState) (attr : String)
    (target : Option String := Option.none) (default : Value := Value.none) :
    Except CellError (Value × PatchCell × LayerState) :=
  match self.layer with
  | Except.error e => Except.error e
  | Except.ok l =>
      let st' := if attr ∈ l.dynamic_variables then l.dynamic_var attr st else st
      Except.ok (PatchCell.superGet st' attr target default, self, st')

/-- Embeds `PatchCell.neighboring` with the source's defaults: delegates
to `self.layer.get_neighboring_by_indices(self.indices, moore=..,
radius=.., include_center=.., annular=..)`. -/
def PatchCell.neighboring (self : PatchCell) (moore : Bool := false)
    (radius : Int := 1) (include_center : Bool := false)
    (annular : Bool := false) : Except CellError (List Pos) :=
  match self.layer with
  | Except.error e => Except.error e
  | Except.ok l =>
      Except.ok (l.get_neighboring_by_indices self.indices moore radius
        include_center annular)

/-- One invocation of the cell's public interface, used to state that no
sequence of such invocations changes the cell's `indices`. -/
inductive CellOp where
  | opGet (attr : String) (target : Option String) (default : Value)
  | opCoordinate
  | opNeighboring (moore : Bool) (radius : Int) (include_center : Bool)
      (annular : Bool)
  | opLayer
  | opAgents

/-- The effect of one interface invocation on the object and the
store/log state.  `get` is the only method of the interface that touches
mutable state (the refresh); the accessors only read, and the source
assigns nothing on `self` in any of them, so they leave both components
unchanged.  A raise propagates before any mutation, leaving the state as
it was. -/
def PatchCell.applyOp (self : PatchCell) (st : LayerState) :
    CellOp → PatchCell × LayerState
  | CellOp.opGet attr target default =>
      match self.get st attr target default with
      | Except.ok (_, self', st') => (self', st')
      | Except.error _ => (self, st)
  | CellOp.opCoordinate => (self, st)
  | CellOp.opNeighboring _ _ _ _ => (self, st)
  | CellOp.opLayer => (self, st)
  | CellOp.opAgents => (self, st)

/-- Run a sequence of interface invocations, threading the object and the
store/log state. -/
def PatchCell.runOps (self : PatchCell) (st : LayerState) :
    List CellOp → PatchCell × LayerState
  | [] => (self, st)
  | op :: rest =>
      let p := self.applyOp st op
      PatchCell.runOps p.1 p.2 rest

section Demo

/-- A concrete layer satisfying the raster capability, used to evaluate
the theorems on concrete inputs. -/
def demoLayer : Layer :=
  { isRasterBase := true
    modelId := 7
    dynamic_variables := ["temp"]
    compute := fun _ => Value.vInt 42
    transform_coord := fun r c => (r + 100, c + 200)
    get_neighboring_by_indices := fun p _ _ _ _ => [p] }

/-- A concrete object failing the raster capability check. -/
def demoBadLayer : Layer :=
  { demoLayer with isRasterBase := false }

/-- A concrete cell class: one decorated own property `elevation`, one
undecorated own property `slope`, one non-property own member, and one
decorated property inherited from a base class. -/
def demoClass : CellClass :=
  { own :=
      [("elevation", raster_attribute { fnId := 1, is_decorated := false }),
       ("slope", ClassMember.prop { fnId := 2, is_decorated := false }),
       ("helper", ClassMember.other 3)]
    inherited := [("parentAttr", raster_attribute { fnId := 4, is_decorated := false })]
    max_agents := some 5 }

/-- The cell obtained by constructing `demoClass` on `demoLayer`. -/
def demoCell : PatchCell :=
  (PatchCell.runInit demoClass demoLayer (1, 2) Option.none).2

/-- A concrete store state: `temp` is stale, `static` is set. -/
def demoState : LayerState :=
  { values := [("temp", Value.vInt 0), ("static", Value.vStr "s")]
    refreshLog := [] }

end Demo

/-! Theorems for the claims. -/

/-- C1: for every constructed cell, construction fails with the
invalid-layer error (the source's `TypeError`) whenever the supplied
layer does not satisfy the raster-layer capability check (`isinstance
(layer, RasterBase)`), and succeeds, binding exactly that layer, when it
does. -/
theorem construct_layer_capability_check (cls : CellClass) (layer : Layer)
    (indices : Pos) (pos : Option Pos) :
    (layer.isRasterBase = false →
       (PatchCell.runInit cls layer indices pos).1 =
         some CellError.invalidLayer)
    ∧ (layer.isRasterBase = true →
       (PatchCell.runInit cls layer indices pos).1 = Option.none
       ∧ (PatchCell.runInit cls layer indices pos).2._layer = some layer) := by
  constructor
  · intro h
    simp [PatchCell.runInit, PatchCell._set_layer, h]
  · intro h
    simp [PatchCell.runInit, PatchCell._set_layer, h]

/-- Witness for C1 at a concrete invalid layer and a concrete valid
layer. -/
theorem construct_layer_capability_check_witness :
    (PatchCell.runInit demoClass demoBadLayer (1, 2) Option.none).1 =
      some CellError.invalidLayer
    ∧ (PatchCell.runInit demoClass demoLayer (1, 2) Option.none).2._layer =
      some demoLayer := by
  refine ⟨(construct_layer_capability_check demoClass demoBadLayer (1, 2)
      Option.none).1 ?_,
    ((construct_layer_capability_check demoClass demoLayer (1, 2)
      Option.none).2 ?_).2⟩ <;> rfl

/-- C2: the class-level enumeration of exposed attribute names contains
exactly the names bound in the type's own class dictionary to a property
whose accessor carries the `is_decorated` marker; members merely
inherited from base classes are never consulted, and the function takes
no instance, so the result is independent of instance state and the same
on every call. -/
theorem attribute_properties_exact (cls : CellClass) (n : String) :
    (n ∈ cls.attribute_properties ↔
       ∃ g : PyFunc, (n, ClassMember.prop g) ∈ cls.own
         ∧ g.is_decorated = true)
    ∧ (∀ inh, CellClass.attribute_properties { cls with inherited := inh } =
        cls.attribute_properties) := by
  constructor
  · unfold CellClass.attribute_properties
    simp only [List.mem_map, List.mem_filter]
    constructor
    · rintro ⟨⟨k, m⟩, ⟨hmem, hpred⟩, rfl⟩
      cases m with
      | prop g => exact ⟨g, hmem, by simpa using hpred⟩
      | other i => simp at hpred
    · rintro ⟨g, hmem, hdec⟩
      exact ⟨(n, ClassMember.prop g), ⟨hmem, by simpa using hdec⟩, rfl⟩
  · intro inh
    rfl

/-- Witness for C2 on the concrete demo class: `elevation` (decorated own
property) is listed, `slope` (undecorated own property) and `parentAttr`
(decorated but inherited) are not. -/
theorem attribute_properties_exact_witness :
    ("elevation" ∈ demoClass.attribute_properties
      ↔ ∃ g : PyFunc, ("elevation", ClassMember.prop g) ∈ demoClass.own
          ∧ g.is_decorated = true)
    ∧ "elevation" ∈ demoClass.attribute_properties
    ∧ "slope" ∉ demoClass.attribute_properties
    ∧ "parentAttr" ∉ demoClass.attribute_properties := by
  exact ⟨(attribute_properties_exact demoClass "elevation").1,
    by decide, by decide, by decide⟩

/-- Reading back the key just written into the store yields the written
value. -/
theorem lookupStore_updateStore (vs : List (String × Value)) (a : String)
    (v : Value) : lookupStore (updateStore vs a v) a = some v := by
  induction vs with
  | nil => simp [updateStore, lookupStore]
  | cons p rest ih =>
      obtain ⟨k, w⟩ := p
      by_cases h : k = a
      · simp [updateStore, lookupStore, h]
      · simp [updateStore, lookupStore, h, ih]

/-- C3: on a bound cell, a `get` for a name registered among the layer's
dynamic variables first issues exactly one refresh request for that name
to the layer and reads from the refreshed store (so it returns the
freshly recomputed value); a `get` for any other name performs the
ordinary lookup on the untouched store and issues no refresh. -/
theorem get_dynamic_refresh_order (self : PatchCell) (l : Layer)
    (st : LayerState) (attr : String) (target : Option String) (d : Value)
    (hl : self._layer = some l) :
    (attr ∈ l.dynamic_variables →
       self.get st attr target d =
         Except.ok (PatchCell.superGet (l.dynamic_var attr st) attr target d,
           self, l.dynamic_var attr st)
       ∧ (l.dynamic_var attr st).refreshLog = st.refreshLog ++ [attr]
       ∧ PatchCell.superGet (l.dynamic_var attr st) attr target d =
           l.compute attr)
    ∧ (attr ∉ l.dynamic_variables →
       self.get st attr target d =
         Except.ok (PatchCell.superGet st attr target d, self, st)) := by
  constructor
  · intro hmem
    refine ⟨?_, rfl, ?_⟩
    · simp [PatchCell.get, PatchCell.layer, hl, hmem]
    · simp [PatchCell.superGet, Layer.dynamic_var, lookupStore_updateStore]
  · intro hmem
    simp [PatchCell.get, PatchCell.layer, hl, hmem]

/-- Witness for C3 on the demo cell: reading the dynamic name `temp`
refreshes it (the stale 0 is replaced by the recomputed 42 and the
refresh is logged), while reading the static name `static` leaves the
state untouched. -/
theorem get_dynamic_refresh_order_witness :
    demoCell.get demoState "temp" Option.none Value.none =
      Except.ok (Value.vInt 42, demoCell,
        { values := [("temp", Value.vInt 42), ("static", Value.vStr "s")],
          refreshLog := ["temp"] })
    ∧ demoCell.get demoState "static" Option.none Value.none =
      Except.ok (Value.vStr "s", demoCell, demoState) := by
  constructor
  · have h := (get_dynamic_refresh_order demoCell demoLayer demoState "temp"
      Option.none Value.none rfl).1 (by decide)
    exact h.1.trans (by rfl)
  · have h := (get_dynamic_refresh_order demoCell demoLayer demoState "static"
      Option.none Value.none rfl).2 (by decide)
    exact h.trans (by rfl)

/-- C4: on a bound cell, a `get` for a name that is neither a dynamic
variable nor present in the store returns the supplied default and does
not raise (and leaves the state untouched). -/
theorem get_missing_returns_default (self : PatchCell) (l : Layer)
    (st : LayerState) (attr : String) (target : Option String) (d : Value)
    (hl : self._layer = some l)
    (hdyn : attr ∉ l.dynamic_variables)
    (habs : lookupStore st.values attr = Option.none) :
    self.get st attr target d = Except.ok (d, self, st) := by
  simp [PatchCell.get, PatchCell.layer, PatchCell.superGet, hl, hdyn, habs]

/-- Witness for C4: the absent name `missing` with default 9 returns 9. -/
theorem get_missing_returns_default_witness :
    demoCell.get demoState "missing" Option.none (Value.vInt 9) =
      Except.ok (Value.vInt 9, demoCell, demoState) :=
  get_missing_returns_default demoCell demoLayer demoState "missing"
    Option.none (Value.vInt 9) rfl (by decide) (by decide)

/-- C5: accessing the owning layer on a cell whose back-reference is
unset raises the unbound-cell error (the source's `ABSESpyError`), never
a silent default; once a layer is bound — in particular right after a
successful construction — the accessor returns exactly the bound
layer. -/
theorem layer_access_guard (self : PatchCell) (cls : CellClass)
    (layer : Layer) (indices : Pos) (pos : Option Pos) :
    (self._layer = Option.none →
       self.layer = Except.error CellError.unboundCell)
    ∧ (∀ l, self._layer = some l → self.layer = Except.ok l)
    ∧ (layer.isRasterBase = true →
       (PatchCell.runInit cls layer indices pos).2.layer =
         Except.ok layer) := by
  refine ⟨?_, ?_, ?_⟩
  · intro h
    simp [PatchCell.layer, h]
  · intro l h
    simp [PatchCell.layer, h]
  · intro h
    simp [PatchCell.runInit, PatchCell._set_layer, PatchCell.layer, h]

/-- Witness for C5: a blank unbound cell raises, and the demo cell built
by construction returns the demo layer. -/
theorem layer_access_guard_witness :
    ({ indices := (0, 0), pos := Option.none, _layer := Option.none,
       _agents := Option.none, modelId := 0 } : PatchCell).layer =
      Except.error CellError.unboundCell
    ∧ (PatchCell.runInit demoClass demoLayer (1, 2) Option.none).2.layer =
      Except.ok demoLayer := by
  refine ⟨(layer_access_guard _ demoClass demoLayer (1, 2) Option.none).1 rfl,
    (layer_access_guard demoCell demoClass demoLayer (1, 2)
      Option.none).2.2 rfl⟩

/-- C6: on a bound cell, the neighbor query passes exactly the cell's own
indices and the four flags, unchanged, to the layer's
`get_neighboring_by_indices` and returns its result; when the caller
omits the flags, the defaults are `moore = false`, `radius = 1`,
`include_center = false`, `annular = false`. -/
theorem neighboring_delegates (self : PatchCell) (l : Layer)
    (moore : Bool) (radius : Int) (include_center : Bool) (annular : Bool)
    (hl : self._layer = some l) :
    self.neighboring moore radius include_center annular =
      Except.ok (l.get_neighboring_by_indices self.indices moore radius
        include_center annular)
    ∧ self.neighboring =
      Except.ok (l.get_neighboring_by_indices self.indices false 1 false
        false) := by
  constructor
  · simp [PatchCell.neighboring, PatchCell.layer, hl]
  · simp [PatchCell.neighboring, PatchCell.layer, hl]

/-- Witness for C6: the demo layer's resolver returns the singleton of
the queried indices, so the demo cell's query returns its own indices,
for explicit flags and for the defaulted call alike. -/
theorem neighboring_delegates_witness :
    demoCell.neighboring true 2 true false =
      Except.ok [((1 : Int), (2 : Int))]
    ∧ demoCell.neighboring = Except.ok [((1 : Int), (2 : Int))] := by
  have h := neighboring_delegates demoCell demoLayer true 2 true false rfl
  exact ⟨h.1.trans (by rfl), h.2.trans (by rfl)⟩

/-- C7: on a bound cell, the projected coordinate is the layer's
coordinate transform applied to the cell's indices, row first and then
column; the accessor mutates neither the cell nor the store/log state. -/
theorem coordinate_from_transform (self : PatchCell) (l : Layer)
    (st : LayerState) (hl : self._layer = some l) :
    self.coordinate =
      Except.ok (l.transform_coord self.indices.1 self.indices.2)
    ∧ self.applyOp st CellOp.opCoordinate = (self, st) := by
  constructor
  · simp [PatchCell.coordinate, PatchCell.layer, hl]
  · rfl

/-- Witness for C7: the demo transform adds 100 to the row and 200 to the
column, so the cell at indices (1, 2) projects to (101, 202). -/
theorem coordinate_from_transform_witness :
    demoCell.coordinate = Except.ok (101, 202)
    ∧ demoCell.applyOp demoState CellOp.opCoordinate =
      (demoCell, demoState) := by
  have h := coordinate_from_transform demoCell demoLayer demoState rfl
  exact ⟨h.1.trans (by rfl), h.2⟩

/-- C8: every successful construction creates the agent container there
and then, bound to the owning layer's model and to this very cell, with
capacity ceiling exactly the type-level `max_agents` class attribute —
`Option.none` (unbounded) when that attribute is absent or `None`. -/
theorem agents_container_at_construction (cls : CellClass) (layer : Layer)
    (indices : Pos) (pos : Option Pos) (c : PatchCell)
    (hok : PatchCell.runInit cls layer indices pos = (Option.none, c)) :
    c._agents = some
      { modelId := layer.modelId, cellIndices := indices,
        max_len := cls.max_agents }
    ∧ c.agents = some
      { modelId := layer.modelId, cellIndices := indices,
        max_len := cls.max_agents } := by
  by_cases h : layer.isRasterBase
  · simp only [PatchCell.runInit, PatchCell._set_layer, h, if_pos,
      Prod.mk.injEq] at hok
    rw [← hok.2]
    exact ⟨rfl, rfl⟩
  · simp [PatchCell.runInit, PatchCell._set_layer, h] at hok

/-- Witness for C8: the demo class declares `max_agents = 5`; the
container of the constructed demo cell carries model 7, the cell's
indices (1, 2), and capacity 5. -/
theorem agents_container_at_construction_witness :
    demoCell._agents = some
      { modelId := 7, cellIndices := (1, 2), max_len := some 5 } :=
  (agents_container_at_construction demoClass demoLayer (1, 2) Option.none
    demoCell rfl).1

/-- No single interface invocation changes the cell's `indices` (the
source assigns nothing to `self.indices` in any public method). -/
theorem applyOp_indices (self : PatchCell) (st : LayerState) (op : CellOp) :
    (self.applyOp st op).1.indices = self.indices := by
  cases op with
  | opGet attr target default =>
      unfold PatchCell.applyOp PatchCell.get
      rcases hl : self.layer with e | l <;> simp
  | opCoordinate => rfl
  | opNeighboring moore radius include_center annular => rfl
  | opLayer => rfl
  | opAgents => rfl

/-- No sequence of interface invocations changes the cell's `indices`. -/
theorem runOps_indices (ops : List CellOp) (self : PatchCell)
    (st : LayerState) :
    (PatchCell.runOps self st ops).1.indices = self.indices := by
  induction ops generalizing self st with
  | nil => rfl
  | cons op rest ih =>
      unfold PatchCell.runOps
      rw [ih]
      exact applyOp_indices self st op

/-- C9: a successfully constructed cell carries exactly the indices given
at construction, and no sequence of public-interface invocations
(attribute get, coordinate, neighbor query, layer access, container
access) ever changes them. -/
theorem indices_immutable (cls : CellClass) (layer : Layer) (indices : Pos)
    (pos : Option Pos) (c : PatchCell) (st : LayerState) (ops : List CellOp)
    (hok : PatchCell.runInit cls layer indices pos = (Option.none, c)) :
    c.indices = indices
    ∧ (PatchCell.runOps c st ops).1.indices = indices := by
  have hidx : c.indices = indices := by
    by_cases h : layer.isRasterBase
    · simp only [PatchCell.runInit, PatchCell._set_layer, h, if_pos,
        Prod.mk.injEq] at hok
      rw [← hok.2]
    · simp [PatchCell.runInit, PatchCell._set_layer, h] at hok
  exact ⟨hidx, (runOps_indices ops c st).trans hidx⟩

/-- Witness for C9: running one invocation of every kind on the demo cell
leaves its indices at (1, 2). -/
theorem indices_immutable_witness :
    demoCell.indices = (1, 2)
    ∧ (PatchCell.runOps demoCell demoState
        [CellOp.opGet "temp" Option.none Value.none, CellOp.opCoordinate,
         CellOp.opNeighboring true 2 false false, CellOp.opLayer,
         CellOp.opAgents]).1.indices = (1, 2) :=
  indices_immutable demoClass demoLayer (1, 2) Option.none demoCell
    demoState
    [CellOp.opGet "temp" Option.none Value.none, CellOp.opCoordinate,
     CellOp.opNeighboring true 2 false false, CellOp.opLayer,
     CellOp.opAgents] rfl

/-- C10: when the supplied layer fails the raster capability check, the
error is raised before either the layer back-reference or the agent
container is assigned, so the failed cell still has no bound layer and no
container — construction fails atomically. -/
theorem construct_atomic_on_invalid_layer (cls : CellClass) (layer : Layer)
    (indices : Pos) (pos : Option Pos)
    (h : layer.isRasterBase = false) :
    (PatchCell.runInit cls layer indices pos).1 =
      some CellError.invalidLayer
    ∧ (PatchCell.runInit cls layer indices pos).2._layer = Option.none
    ∧ (PatchCell.runInit cls layer indices pos).2._agents = Option.none := by
  refine ⟨?_, ?_, ?_⟩ <;>
    simp [PatchCell.runInit, PatchCell._set_layer, h]

/-- Witness for C10: constructing on the invalid demo layer raises and
leaves both the back-reference and the container unset. -/
theorem construct_atomic_on_invalid_layer_witness :
    (PatchCell.runInit demoClass demoBadLayer (3, 4) Option.none).1 =
      some CellError.invalidLayer
    ∧ (PatchCell.runInit demoClass demoBadLayer (3, 4) Option.none).2._layer =
      Option.none
    ∧ (PatchCell.runInit demoClass demoBadLayer (3, 4)
        Option.none).2._agents = Option.none :=
  construct_atomic_on_invalid_layer demoClass demoBadLayer (3, 4)
    Option.none rfl

end ABSES
